import Mathlib

/-!
Verification development for the copy-refinery repository: a shallow
embedding of the text-transformation client (`src/api.js`), the browser
client (`src/api-browser.js`) and the relay server (`src/server.js`),
together with theorems settling the specification claims.

Conventions of the embedding:
* JS strings are Lean `String`s; `undefined`/missing string values are
  `Option String` with `none`, and JS truthiness of a string value is
  "present and non-empty".
* The external provider (the Anthropic SDK call resp. `fetch`) is an
  explicit parameter: an `SdkOutcome` / `FetchOutcome` value describing
  what the single outbound call did.  A function that in JS can throw is
  modelled with `Except String`; a function that catches everything and
  returns a result envelope is total.
* Timestamps (`new Date().toISOString()`) and numeric tuning fields
  (`max_tokens`, `temperature`) are elided: no claim mentions them.
-/

namespace CopyRefinery

/-- JS truthiness of a possibly-missing string: `undefined`, `null` and
`""` are falsy, every other string is truthy. -/
def truthyO : Option String → Bool
  | none => false
  | some s => !(s == "")

/-- The whitespace characters relevant to `String.prototype.trim` that
occur in this development (space, tab, newline, carriage return). -/
def isJsWS (c : Char) : Bool := c == ' ' || c == '\t' || c == '\n' || c == '\r'

/-- Remove leading and trailing whitespace from a character list,
modelling `String.prototype.trim`. -/
def trimChars (l : List Char) : List Char :=
  ((l.dropWhile isJsWS).reverse.dropWhile isJsWS).reverse

/-- `String.prototype.trim` on Lean strings. -/
def jsTrim (s : String) : String := ⟨trimChars s.data⟩

/-- Metadata attached to a model id in `availableModels` (src/api.js
constructor). -/
structure ModelInfo where
  name : String
  description : String
  pricing : String
  recommended : Bool := false
  premium : Bool := false
  fast : Bool := false
deriving DecidableEq

/-- The static model registry from the `TextTransformAPI` constructor
(src/api.js lines 18-42), as an association list in source order. -/
def availableModels : List (String × ModelInfo) :=
  [ ("claude-sonnet-4-5-20250929",
     { name := "Claude Sonnet 4.5"
       description := "Latest & most intelligent - exceptional agent & coding capabilities"
       pricing := "$3/$15 per MTok"
       recommended := true }),
    ("claude-opus-4-1-20250805",
     { name := "Claude Opus 4.1"
       description := "Premium model for complex tasks requiring advanced reasoning"
       pricing := "$15/$75 per MTok"
       premium := true }),
    ("claude-sonnet-4-20250514",
     { name := "Claude Sonnet 4"
       description := "Balanced performance - current default"
       pricing := "$3/$15 per MTok" }),
    ("claude-3-5-haiku-20241022",
     { name := "Claude Haiku 3.5"
       description := "Fast & cost-effective for quick responses"
       pricing := "$0.80/$4 per MTok"
       fast := true }) ]

/-- Own-key lookup in the registry object: the model metadata stored
under `modelId` by the constructor. -/
def lookupModel (modelId : String) : Option ModelInfo :=
  (availableModels.find? (fun p => p.1 == modelId)).map Prod.snd

/-- The member names a plain object literal inherits from
`Object.prototype`: bracket access `this.availableModels[name]` finds a
value for these even though they are not registry keys. -/
def protoKeys : List String :=
  ["constructor", "hasOwnProperty", "isPrototypeOf", "propertyIsEnumerable",
   "toLocaleString", "toString", "valueOf", "__proto__",
   "__defineGetter__", "__defineSetter__", "__lookupGetter__", "__lookupSetter__"]

/-- Truthiness of the JS property access `this.availableModels[modelId]`:
an own registry key, or a member inherited from `Object.prototype` (every
such inherited value — a built-in function, or `Object.prototype` itself
for `__proto__` — is truthy). -/
def modelAccessTruthy (modelId : String) : Bool :=
  (lookupModel modelId).isSome || protoKeys.contains modelId

/-- The mutable per-instance state of `TextTransformAPI`: the process-wide
"current model" selection. -/
structure ApiState where
  model : String
deriving DecidableEq

/-- `this.model = 'claude-sonnet-4-5-20250929'` (src/api.js line 45). -/
def initState : ApiState := ⟨"claude-sonnet-4-5-20250929"⟩

/-- `setModel(modelId)` (src/api.js lines 57-63): the guard is the
truthiness of `this.availableModels[modelId]` — which also accepts the
names inherited from `Object.prototype` — and on success the current
model is set to `modelId` and `true` returned. -/
def setModel (st : ApiState) (modelId : String) : Bool × ApiState :=
  if modelAccessTruthy modelId then (true, { st with model := modelId })
  else (false, st)

/-- `getAvailableModels()` (src/api.js lines 68-70). -/
def getAvailableModels (_st : ApiState) : List (String × ModelInfo) :=
  availableModels

/-- `getCurrentModel()` (src/api.js lines 75-80): the current id together
with the spread of `this.availableModels[this.model]`.  Spreading copies
enumerable own properties only, and the values inherited from
`Object.prototype` have none, so the metadata fields come exactly from
the own-key lookup: absent whenever the id is not a registry key. -/
def getCurrentModel (st : ApiState) : String × Option ModelInfo :=
  (st.model, lookupModel st.model)

/-- The `styleGuide` entry of `additionalParams`: absent, a legacy plain
string, or an object with (possibly missing) `comprehensiveGuide`,
`conciseGuide` and legacy `styleGuide` members. -/
inductive StyleGuideParam
  | absent
  | str (s : String)
  | obj (comprehensiveGuide : Option String) (conciseGuide : Option String)
        (styleGuide : Option String)
deriving DecidableEq

/-- The fields of `additionalParams` / the server's `options` object that
the control flow reads: `instruction` (used by the EDIT route),
`systemPrompt` (the internal dispatch tag, `""` for absent), `styleGuide`
and `context`. -/
structure Options where
  instruction : Option String := none
  systemPrompt : String := ""
  styleGuide : StyleGuideParam := .absent
  context : Option String := none
deriving DecidableEq

/-- Style-guide selection in `transform` (src/api.js lines 91-105): a
comprehensive/concise object picks the comprehensive guide when the
dispatch tag is `articulate` and otherwise the concise guide with the
comprehensive one as `||`-fallback; a plain string or an object without a
truthy `comprehensiveGuide` falls to the legacy handling. -/
def selectedStyleGuideOf (systemPromptTag : String) (sg : StyleGuideParam) :
    Option String :=
  match sg with
  | .absent => none
  | .str s => if s == "" then none else some s
  | .obj comp conc legacy =>
      if truthyO comp then
        if systemPromptTag == "articulate" then comp
        else if truthyO conc then conc else comp
      else legacy

/-- The four system-prompt templates of `transform`. -/
inductive Template
  | articulateT
  | refineT
  | editT
  | genericT
deriving DecidableEq

/-- Which template the `systemPrompt` dispatch tag selects
(src/api.js lines 107, 139, 164, 188). -/
def templateOf (p : Options) : Template :=
  if p.systemPrompt == "articulate" then .articulateT
  else if p.systemPrompt == "refine" then .refineT
  else if p.systemPrompt == "edit" then .editT
  else .genericT

/-- The optional STIL-VORGABEN block interpolated into the articulate,
refine and edit templates: empty when the selected guide is falsy. -/
def styleBlock (intro : String) (sel : Option String) : String :=
  match sel with
  | none => ""
  | some g =>
      if g == "" then ""
      else "STIL-VORGABEN:\n" ++ intro ++ "\n" ++ g ++
        "\n\nAchte besonders auf:\n- Konsistenz mit den Stil-Beispielen\n- Einhaltung der definierten Regeln\n- Beibehaltung des charakteristischen Tons\n\n"

/-- Articulate template, part before the style block (src/api.js 108-128). -/
def articulateHead : String :=
  "Du bist ein erfahrener Copywriter, spezialisiert darauf, rohe Gedankenstrukturen und fragmentierte Ideen in vollständig ausformulierte, fließende Texte zu verwandeln.\n\nDEINE AUFGABE:\nNimm die gegebene Struktur aus Gedankenfragmenten, Stichpunkten oder groben Ideen und entwickle daraus einen vollständig ausformulierten, kohärenten Text.\n\nTRANSFORMATION PRINCIPLES:\n• Erkenne die beabsichtigte Gedankenfolge und logische Struktur\n• Schaffe natürliche Übergänge zwischen den Gedanken\n• Fülle Lücken in der Argumentation intelligent aus\n• Entwickle jeden Punkt zu vollständigen, fließenden Sätzen\n• Wahre die ursprüngliche Intention und Reihenfolge\n• Erschaffe einen natürlichen, lesbaren Textfluss\n\nINDUKTIVES COPYWRITING-PRINZIP (besonders bei längeren Texten):\n• Jeder Satz soll genügend Neugier für den nächsten Satz erzeugen\n• Schaffe eine \"Satz-zu-Satz-Induktion\": Verwende offene Schleifen, Andeutungen oder Versprechungen, die den Leser weiterlesen lassen\n• Vermeide vorzeitige Auflösung - baue schrittweise Spannung und Interesse auf\n• Nutze Cliffhanger-Elemente am Satzende, um nahtlose Übergänge zu schaffen\n• Implementiere dieses Prinzip organisch - nie zwanghaft oder künstlich\n• Denke an Eugene Schwartz\x27 Fundamental: Der Zweck jedes Satzes ist es, den nächsten gelesen zu bekommen\n\n"

/-- Articulate template, part after the style block (src/api.js 138). -/
def articulateTail : String :=
  "OUTPUT: Nur der vollständig ausformulierte Text, keine Erklärungen."

/-- Refine template, part before the style block (src/api.js 140-153). -/
def refineHead : String :=
  "Du bist ein Textredakteur und Copy-Editor mit höchsten Qualitätsstandards. Deine Expertise liegt darin, bestehende Texte zu perfektionieren, ohne deren Kernaussage oder Persönlichkeit zu verändern.\n\nDEINE AUFGABE:\nVerfeinere den gegebenen Text durch Verbesserung von Formulierung, Stil, Grammatik und Fluss, während du die ursprüngliche Intention vollständig bewahrst.\n\nVERFEINERUNGS-PRINZIPIEN:\n• Korrigiere grammatische und stilistische Fehler\n• Optimiere Wortwahl und Satzstrukturen\n• Verbessere Lesbarkeit und Textfluss\n• Entferne Redundanzen und Füllwörter\n• Verstärke Klarheit und Prägnanz\n• Bewahre die ursprüngliche Stimme und Persönlichkeit\n• Halte alle Fakten und Kernaussagen bei\n\n"

/-- Refine template, part after the style block (src/api.js 163). -/
def refineTail : String :=
  "OUTPUT: Nur der verfeinerte Text, keine Erklärungen."

/-- Edit template, part before the style block (src/api.js 165-177). -/
def editHead : String :=
  "Du bist ein professioneller Text-Editor mit höchster Präzision. Deine Aufgabe ist es, den gegebenen Text exakt nach den spezifischen Anweisungen zu bearbeiten.\n\nDEINE AUFGABE:\nFühre die gegebene Bearbeitungsanweisung am Text präzise aus, ohne die grundlegende Intention oder den Kontext zu verändern.\n\nBEARBEITUNGS-PRINZIPIEN:\n• Befolge die Anweisung exakt und vollständig\n• Behalte die ursprüngliche Bedeutung bei, außer explizit anders angewiesen\n• Mache nur die angeforderten Änderungen\n• Bewahre den ursprünglichen Stil, außer er soll geändert werden\n• Bei unklaren Anweisungen, interpretiere im Kontext des Textes\n• Arbeite präzise und zielgerichtet\n\n"

/-- Edit template, part after the style block (src/api.js 187). -/
def editTail : String :=
  "OUTPUT: Nur der bearbeitete Text, keine Erklärungen oder Kommentare."

/-- Fallback system prompt used for any other dispatch tag
(src/api.js 189-195); it ignores the style guide. -/
def genericTemplate : String :=
  "Du bist ein professioneller Texting-Assistent. Deine Aufgabe ist es, den gegebenen Text gemäß der spezifischen Anweisung umzuformen.\n\nRegeln:\n- Gib NUR den umgeformten Text zurück, keine Erklärungen oder zusätzlichen Kommentare\n- Bewahre die ursprüngliche Bedeutung und Absicht soweit möglich\n- Behalte den angemessenen Ton und Stil für den Kontext bei\n- Falls die Anweisung unklar ist, interpretiere sie bestmöglich"

/-- The system-prompt construction of `transform` (src/api.js 107-196):
dispatch on the `systemPrompt` tag, interpolating the selected style
guide into the three dedicated templates. -/
def buildSystemPrompt (p : Options) : String :=
  let sel := selectedStyleGuideOf p.systemPrompt p.styleGuide
  if p.systemPrompt == "articulate" then
    articulateHead ++ styleBlock "Befolge diesen Style Guide bei der Ausformulierung:" sel ++ articulateTail
  else if p.systemPrompt == "refine" then
    refineHead ++ styleBlock "Befolge diesen Style Guide bei der Verfeinerung:" sel ++ refineTail
  else if p.systemPrompt == "edit" then
    editHead ++ styleBlock "Befolge diesen Style Guide bei der Bearbeitung:" sel ++ editTail
  else genericTemplate

/-- The user-prompt construction of `transform` (src/api.js 198-207). -/
def buildUserPrompt (text instruction : String) (p : Options) : String :=
  (if p.systemPrompt == "articulate" then "ROHE GEDANKENSTRUKTUR:"
   else if p.systemPrompt == "refine" then "TEXT ZUM VERFEINERN:"
   else if p.systemPrompt == "edit" then "TEXT ZUM BEARBEITEN:"
   else "Forme diesen Text um:")
  ++ "\n\"" ++ text ++ "\"\n\nANWEISUNGEN:\n" ++ instruction ++ "\n\n"
  ++ (match p.context with
      | some c => if c == "" then "" else "KONTEXT (Gesamter Text im Editor):\n" ++ c
      | none => "")
  ++ "\n\nAUFGABE: "
  ++ (if p.systemPrompt == "articulate" then
        "Transformiere diese rohe Struktur in einen vollständig ausformulierten, fließenden Text."
      else if p.systemPrompt == "refine" then
        "Verfeinere diesen Text durch Verbesserung von Formulierung, Stil und Fluss."
      else if p.systemPrompt == "edit" then
        "Führe die Bearbeitungsanweisung präzise am Text aus."
      else "Forme den Text entsprechend der Anweisung um.")

/-- One content block of a provider message (`message.content[i]`). -/
structure ContentBlock where
  text : String
deriving DecidableEq

/-- The parsed provider message body: `{ content: [...] }`. -/
structure SdkMessage where
  content : List ContentBlock
deriving DecidableEq

/-- Outcome of the single `this.client.messages.create(...)` call of the
node client: a message, or a rejection carrying the error message that
the catch block reads as `error.message`. -/
inductive SdkOutcome
  | ok (m : SdkMessage)
  | err (msg : String)
deriving DecidableEq

/-- The runtime `TypeError` message produced by `message.content[0].text`
when the content array is empty. -/
def undefinedTextErrorMsg : String :=
  "Cannot read properties of undefined (reading \x27text\x27)"

/-- The uniform result envelope of `transform` (src/api.js 225-243).
Fields absent from a branch's object literal are `none`. -/
structure TransformResult where
  success : Bool
  originalText : String := ""
  transformedText : Option String := none
  error : Option String := none
  instruction : String := ""
  model : Option String := none
deriving DecidableEq

/-- The provider request assembled and sent by one `transform` call. -/
structure IssuedCall where
  template : Template
  system : String
  user : String
  model : String
deriving DecidableEq

/-- `transform(text, instruction, additionalParams)` (src/api.js 85-244):
build the prompts, issue the one provider call, and wrap the outcome.
Every branch — including a rejected call and a malformed body — returns a
`TransformResult`; nothing escapes the surrounding try/catch.  The second
component records the provider call issued by this invocation. -/
def transform (st : ApiState) (text instruction : String) (p : Options)
    (up : SdkOutcome) : TransformResult × List IssuedCall :=
  let call : IssuedCall :=
    ⟨templateOf p, buildSystemPrompt p, buildUserPrompt text instruction p, st.model⟩
  let res : TransformResult :=
    match up with
    | .err e =>
        { success := false, error := some e, originalText := text,
          instruction := instruction }
    | .ok m =>
        match m.content with
        | [] =>
            { success := false, error := some undefinedTextErrorMsg,
              originalText := text, instruction := instruction }
        | c :: _ =>
            { success := true, originalText := text,
              transformedText := some (jsTrim c.text),
              instruction := instruction, model := some st.model }
  (res, [call])

/-- The fixed instruction of `articulate` (src/api.js 250). -/
def articulateInstruction : String :=
  "Entwickle aus der gegebenen Gedankenstruktur einen vollständig ausformulierten, fließenden Text. Schaffe natürliche Übergänge, fülle logische Lücken und verwandle Fragmente in kohärente, überzeugende Prosa."

/-- The fixed instruction of `refine` (src/api.js 262). -/
def refineInstruction : String :=
  "Verfeinere diesen Text durch Optimierung von Formulierung, Grammatik und Stil. Verbessere Klarheit und Lesbarkeit, während du die ursprüngliche Aussage und den Charakter des Textes vollständig bewahrst."

/-- `articulate(text, additionalParams)` (src/api.js 249-256). -/
def articulate (st : ApiState) (text : String) (p : Options) (up : SdkOutcome) :
    TransformResult × List IssuedCall :=
  transform st text articulateInstruction { p with systemPrompt := "articulate" } up

/-- `refine(text, additionalParams)` (src/api.js 261-268). -/
def refine (st : ApiState) (text : String) (p : Options) (up : SdkOutcome) :
    TransformResult × List IssuedCall :=
  transform st text refineInstruction { p with systemPrompt := "refine" } up

/-- The error thrown by `edit` for a missing or blank instruction
(src/api.js 275). -/
def editCheckError : String := "EDIT function requires a specific instruction"

/-- `edit(text, instruction, additionalParams)` (src/api.js 273-282):
throws (models as `.error`) when the instruction is falsy or trims to
empty, otherwise delegates to `transform` with the trimmed instruction. -/
def edit (st : ApiState) (text instruction : String) (p : Options)
    (up : SdkOutcome) : Except String (TransformResult × List IssuedCall) :=
  if instruction == "" || jsTrim instruction == "" then .error editCheckError
  else .ok (transform st text (jsTrim instruction) { p with systemPrompt := "edit" } up)

/-! ### Style-guide response parsing

`generateStyleGuide` splits the provider response with two regexes
(src/api.js 347-348):

* `/=== UMFASSENDER STYLE GUIDE.*?===(.*?)(?==== PRÄZISER STYLE GUIDE|$)/s`
* `/=== PRÄZISER STYLE GUIDE.*?===(.*?)$/s`

Both start with a literal header, lazily skip to the next `===`, and then
capture lazily up to a look-ahead (the concise header or the end of the
string) resp. greedily-via-anchor up to the end.  Since the trailing part
of either pattern can always complete (the `$` alternative always
eventually holds), the JS engine's leftmost-then-lazy strategy reduces to:
take the first header occurrence followed by some later `===`, take the
first `===` after that header, and capture up to the first look-ahead
position.  The functions below implement exactly that strategy on
character lists. -/

/-- First index at or after offset `k` at which `pat` occurs in `s`. -/
def firstOccurAux (pat : List Char) : List Char → Nat → Option Nat
  | s, k =>
      if pat.isPrefixOf s then some k
      else
        match s with
        | [] => none
        | _ :: t => firstOccurAux pat t (k + 1)

/-- First index at which `pat` occurs in `s`. -/
def firstOccur (s pat : List Char) : Option Nat := firstOccurAux pat s 0

/-- The comprehensive header literal of the first regex. -/
def hdrComp : List Char := "=== UMFASSENDER STYLE GUIDE".data

/-- The concise header literal of the second regex (also the look-ahead
literal of the first). -/
def hdrConc : List Char := "=== PRÄZISER STYLE GUIDE".data

/-- The `===` separator literal. -/
def sepEq3 : List Char := "===".data

/-- The bare comprehensive marker named by the specification. -/
def markerComp : List Char := "UMFASSENDER STYLE GUIDE".data

/-- The bare concise marker named by the specification. -/
def markerConc : List Char := "PRÄZISER STYLE GUIDE".data

/-- Lazy capture of `(.*?)(?==== PRÄZISER STYLE GUIDE|$)`: the characters
up to the first position where the concise header starts, or all of them
when it never does. -/
def captureUntilConc : List Char → List Char
  | [] => []
  | c :: t => if hdrConc.isPrefixOf (c :: t) then [] else c :: captureUntilConc t

/-- Try to match `hdr.*?===(capture)` at the very start of `s`:
the header must be a prefix, then the capture begins after the first
`===` that follows it. -/
def tryMatchAt (hdr : List Char) (capture : List Char → List Char)
    (s : List Char) : Option (List Char) :=
  if hdr.isPrefixOf s then
    (firstOccur (s.drop hdr.length) sepEq3).map
      (fun i => capture ((s.drop hdr.length).drop (i + sepEq3.length)))
  else none

/-- Leftmost match: try each start position in order. -/
def scanMatch (hdr : List Char) (capture : List Char → List Char) :
    List Char → Option (List Char)
  | [] => none
  | c :: t =>
      match tryMatchAt hdr capture (c :: t) with
      | some r => some r
      | none => scanMatch hdr capture t

/-- `fullResponse.match(/=== UMFASSENDER STYLE GUIDE.*?===(.*?)(?==== PRÄZISER STYLE GUIDE|$)/s)`,
returning the capture group. -/
def comprehensiveMatch (s : List Char) : Option (List Char) :=
  scanMatch hdrComp captureUntilConc s

/-- `fullResponse.match(/=== PRÄZISER STYLE GUIDE.*?===(.*?)$/s)`,
returning the capture group. -/
def conciseMatch (s : List Char) : Option (List Char) :=
  scanMatch hdrConc id s

/-- The guide extraction of `generateStyleGuide` (src/api.js 347-351):
`comprehensiveGuide` is the trimmed capture, falling back to the whole
response; `conciseGuide` is the trimmed capture, falling back to `''`. -/
def parseGuides (full : List Char) : List Char × List Char :=
  (match comprehensiveMatch full with
   | some cap => trimChars cap
   | none => full,
   match conciseMatch full with
   | some cap => trimChars cap
   | none => [])

/-- The result envelope of `generateStyleGuide` (src/api.js 353-372). -/
structure StyleGuideResult where
  success : Bool
  styleGuide : Option String := none
  comprehensiveGuide : Option String := none
  conciseGuide : Option String := none
  fullResponse : Option String := none
  exampleText : String := ""
  additionalInstructions : Option String := none
  error : Option String := none
  model : Option String := none
deriving DecidableEq

/-- `generateStyleGuide(exampleText, additionalInstructions)`
(src/api.js 287-374): one provider call, then the dual-guide parsing; the
catch block wraps any rejection into a `success=false` envelope. -/
def generateStyleGuide (st : ApiState) (exampleText additionalInstructions : String)
    (up : SdkOutcome) : StyleGuideResult :=
  match up with
  | .err e =>
      { success := false, error := some e, exampleText := exampleText }
  | .ok m =>
      match m.content with
      | [] =>
          { success := false, error := some undefinedTextErrorMsg,
            exampleText := exampleText }
      | c :: _ =>
          let full := jsTrim c.text
          let comp : String := ⟨(parseGuides full.data).1⟩
          let conc : String := ⟨(parseGuides full.data).2⟩
          { success := true, styleGuide := some comp,
            comprehensiveGuide := some comp, conciseGuide := some conc,
            fullResponse := some full, exampleText := exampleText,
            additionalInstructions := some additionalInstructions,
            model := some st.model }

/-! ### Browser client (src/api-browser.js) -/

/-- The state of the browser `TextTransformAPI`. -/
structure BrowserState where
  model : String := "claude-3-5-sonnet-20241022"
deriving DecidableEq

/-- Outcome of the `fetch` call in the browser `transform`
(src/api-browser.js 40-67): a 2xx response with a parsed body, a 2xx
response whose body handling throws (carrying that error's message), a
non-2xx response with its status, status text and optional parsed error
message, or a network failure (the fetch promise rejecting). -/
inductive FetchOutcome
  | ok (m : SdkMessage)
  | okBadBody (errMsg : String)
  | notOk (status : Nat) (statusText : String) (errMsg : Option String)
  | netFail (msg : String)
deriving DecidableEq

/-- Browser `transform(text, instruction, additionalParams)`
(src/api-browser.js 22-88): on a non-ok response it throws
`` `API Error ${status}: ${errorData.error?.message || statusText}` ``
which the catch block converts into a `success=false` envelope; every
other failure is likewise caught.  Total: no exception escapes. -/
def browserTransform (st : BrowserState) (text instruction : String)
    (f : FetchOutcome) : TransformResult :=
  match f with
  | .ok m =>
      match m.content with
      | [] =>
          { success := false, error := some undefinedTextErrorMsg,
            originalText := text, instruction := instruction }
      | c :: _ =>
          { success := true, originalText := text,
            transformedText := some (jsTrim c.text),
            instruction := instruction, model := some st.model }
  | .okBadBody e =>
      { success := false, error := some e, originalText := text,
        instruction := instruction }
  | .notOk status statusText errMsg =>
      let detail := match errMsg with
        | some m => if m == "" then statusText else m
        | none => statusText
      { success := false,
        error := some ("API Error " ++ toString status ++ ": " ++ detail),
        originalText := text, instruction := instruction }
  | .netFail m =>
      { success := false, error := some m, originalText := text,
        instruction := instruction }

/-! ### Relay server (src/server.js) -/

/-- A JSON body sent back by the transform route: either one of the
handler's own `{success:false, error}` literals or a client result. -/
inductive TBody
  | err (e : String)
  | result (r : TransformResult)
deriving DecidableEq

/-- The `success` field of a transform-route response body. -/
def TBody.successFlag : TBody → Bool
  | .err _ => false
  | .result r => r.success

/-- The destructured fields of a POST /api/transform request body
(src/server.js 41): `options` defaults to `{}`. -/
structure TransformReqBody where
  text : Option String := none
  action : Option String := none
  options : Options := {}
deriving DecidableEq

/-- The POST /api/transform handler (src/server.js 39-83): validate
`text`/`action`, dispatch on the action string, map the synchronous throw
of `edit` to a 500 response via the surrounding try/catch.  Returns
(status, body) and the provider calls issued. -/
def handleTransform (st : ApiState) (req : TransformReqBody) (up : SdkOutcome) :
    (Nat × TBody) × List IssuedCall :=
  if truthyO req.text = false || truthyO req.action = false then
    ((400, .err "Missing required fields: text and action"), [])
  else
    let text := req.text.getD ""
    let action := req.action.getD ""
    if action == "ARTICULATE" then
      let r := articulate st text req.options up
      ((200, .result r.1), r.2)
    else if action == "REFINE" then
      let r := refine st text req.options up
      ((200, .result r.1), r.2)
    else if action == "EDIT" then
      if truthyO req.options.instruction = false then
        ((400, .err "EDIT action requires instruction in options"), [])
      else
        match edit st text (req.options.instruction.getD "") req.options up with
        | .error e => ((500, .err e), [])
        | .ok (r, calls) => ((200, .result r), calls)
    else
      ((400, .err ("Unknown action: " ++ action ++ ". Supported actions: ARTICULATE, REFINE, EDIT.")), [])

/-- A JSON body sent back by POST /api/models/set. -/
inductive MSBody
  | err (e : String)
  | ok (currentModel : String × Option ModelInfo)
deriving DecidableEq

/-- The `success` field of a models/set response body. -/
def MSBody.successFlag : MSBody → Bool
  | .err _ => false
  | .ok _ => true

/-- The POST /api/models/set handler (src/server.js 103-133): 400 when
`modelId` is falsy, otherwise `setModel` decides between a 200 response
with the new current model and a 400 invalid-id response.  Returns
(status, body) and the state after the request. -/
def handleModelsSet (st : ApiState) (modelId : Option String) :
    (Nat × MSBody) × ApiState :=
  if truthyO modelId = false then
    ((400, .err "Missing required field: modelId"), st)
  else
    let id := modelId.getD ""
    let r := setModel st id
    if r.1 then ((200, .ok (getCurrentModel r.2)), r.2)
    else ((400, .err ("Invalid model ID: " ++ id)), r.2)

/-- A JSON body sent back by POST /api/generate-style-guide. -/
inductive GBody
  | err (e : String)
  | result (r : StyleGuideResult)
deriving DecidableEq

/-- The `success` field of a generate-style-guide response body. -/
def GBody.successFlag : GBody → Bool
  | .err _ => false
  | .result r => r.success

/-- The POST /api/generate-style-guide handler (src/server.js 17-37):
400 when `exampleText` is falsy or trims to empty, otherwise delegate the
trimmed text to `generateStyleGuide`.  The last component records the
`exampleText` the Transform Client was called with (`none` = the client
was not called). -/
def handleGenerateStyleGuide (st : ApiState) (exampleText : Option String)
    (additionalInstructions : String) (up : SdkOutcome) :
    (Nat × GBody) × Option String :=
  match exampleText with
  | none => ((400, .err "Missing required field: exampleText"), none)
  | some t =>
      if t == "" || jsTrim t == "" then
        ((400, .err "Missing required field: exampleText"), none)
      else
        ((200, .result (generateStyleGuide st (jsTrim t) additionalInstructions up)),
         some (jsTrim t))

/-! ### Module-level wrapper functions (src/api.js 403-457)

`apiInstance` is `Option ApiState`: `none` before `initializeAPI` has
been called.  Each wrapper throws (models as `.error`) the
uninitialized-client error before doing anything else; the second
component counts/records the provider requests issued. -/

/-- The uninitialized-client error message (src/api.js 412 etc.). -/
def apiNotInitializedMsg : String := "API not initialized. Call initializeAPI() first."

/-- Module-level `articulateText` (src/api.js 410-415). -/
def articulateText (inst : Option ApiState) (text : String) (p : Options)
    (up : SdkOutcome) : Except String TransformResult × List IssuedCall :=
  match inst with
  | none => (.error apiNotInitializedMsg, [])
  | some st =>
      let r := articulate st text p up
      (.ok r.1, r.2)

/-- Module-level `refineText` (src/api.js 417-422). -/
def refineText (inst : Option ApiState) (text : String) (p : Options)
    (up : SdkOutcome) : Except String TransformResult × List IssuedCall :=
  match inst with
  | none => (.error apiNotInitializedMsg, [])
  | some st =>
      let r := refine st text p up
      (.ok r.1, r.2)

/-- Module-level `editText` (src/api.js 424-429). -/
def editText (inst : Option ApiState) (text instruction : String) (p : Options)
    (up : SdkOutcome) : Except String TransformResult × List IssuedCall :=
  match inst with
  | none => (.error apiNotInitializedMsg, [])
  | some st =>
      match edit st text instruction p up with
      | .error e => (.error e, [])
      | .ok (r, calls) => (.ok r, calls)

/-- Module-level `generateStyleGuide` wrapper (src/api.js 431-436); the
second component counts provider requests issued. -/
def generateStyleGuideText (inst : Option ApiState)
    (exampleText additionalInstructions : String) (up : SdkOutcome) :
    Except String StyleGuideResult × Nat :=
  match inst with
  | none => (.error apiNotInitializedMsg, 0)
  | some st => (.ok (generateStyleGuide st exampleText additionalInstructions up), 1)

/-- Module-level `setModel` (src/api.js 438-443); issues no provider
request in either case. -/
def setModelText (inst : Option ApiState) (modelId : String) :
    Except String (Bool × ApiState) × Nat :=
  match inst with
  | none => (.error apiNotInitializedMsg, 0)
  | some st => (.ok (setModel st modelId), 0)

/-- Module-level `getAvailableModels` (src/api.js 445-450). -/
def getAvailableModelsText (inst : Option ApiState) :
    Except String (List (String × ModelInfo)) × Nat :=
  match inst with
  | none => (.error apiNotInitializedMsg, 0)
  | some st => (.ok (getAvailableModels st), 0)

/-- Module-level `getCurrentModel` (src/api.js 452-457). -/
def getCurrentModelText (inst : Option ApiState) :
    Except String (String × Option ModelInfo) × Nat :=
  match inst with
  | none => (.error apiNotInitializedMsg, 0)
  | some st => (.ok (getCurrentModel st), 0)

/-- `setModel` calls applied in sequence from a starting state
(the process-wide mutable selection under a series of requests). -/
def applySetModels (ids : List String) (st : ApiState) : ApiState :=
  ids.foldl (fun s id => (setModel s id).2) st

/-- A space followed by `===`: the minimal text closing a marker header
in the provider's documented output format. -/
def eqSp : List Char := " ===".data

/-- A provider response in the documented output format: both marker
headers in their `=== … ===` framing, with contents `A` and `B`. -/
def framedGuides (A B : List Char) : List Char :=
  hdrComp ++ (eqSp ++ (A ++ (hdrConc ++ (eqSp ++ B))))

/-- The concise header without its first character. -/
def hdrConcTl : List Char := "== PRÄZISER STYLE GUIDE".data

/-- The concise header without its leading `===`. -/
def qSpConc : List Char := " PRÄZISER STYLE GUIDE".data

/-! ### Helper lemmas -/

lemma append_ne_empty_of_left (head tail : String) (h : 0 < head.length) :
    head ++ tail ≠ "" := by
  intro he
  have hl : (head ++ tail).length = 0 := by rw [he]; rfl
  rw [ String.length_append] at hl
  omega

lemma jsTrim_empty : jsTrim "" = "" := rfl

lemma ne_empty_of_jsTrim_ne_empty {s : String} (h : jsTrim s ≠ "") : s ≠ "" := by
  intro he
  subst he
  exact h rfl

lemma setModel_preserves_registry_or_proto (st : ApiState)
    (h : (lookupModel st.model).isSome = true ∨
      protoKeys.contains st.model = true) (id : String) :
    (lookupModel ((setModel st id).2).model).isSome = true ∨
      protoKeys.contains ((setModel st id).2).model = true := by
  unfold setModel
  by_cases hid : modelAccessTruthy id = true
  · rw [if_pos hid]
    have hid' : ((lookupModel id).isSome || protoKeys.contains id) = true := hid
    simp only [Bool.or_eq_true] at hid'
    exact hid'
  · rw [if_neg hid]
    exact h

lemma applySetModels_registry_or_proto (ids : List String) (st : ApiState)
    (h : (lookupModel st.model).isSome = true ∨
      protoKeys.contains st.model = true) :
    (lookupModel (applySetModels ids st).model).isSome = true ∨
      protoKeys.contains (applySetModels ids st).model = true := by
  induction ids generalizing st with
  | nil => exact h
  | cons id ids ih =>
      exact ih _ (setModel_preserves_registry_or_proto st h id)

/-! ### Regex-scan lemmas for the style-guide parsing -/

lemma cons_isPrefixOf_cons' (a b : Char) (as bs : List Char) :
    (a :: as).isPrefixOf (b :: bs) = (a == b && as.isPrefixOf bs) := rfl

lemma nil_isPrefixOf' (l : List Char) : ([] : List Char).isPrefixOf l = true := by
  cases l <;> rfl

lemma isPrefixOf_append_self (p t : List Char) : p.isPrefixOf (p ++ t) = true :=
  List.isPrefixOf_iff_prefix.mpr ( List.prefix_append p t)

lemma hdrComp_ne_nil : hdrComp ≠ [] := by decide

lemma hdrConc_ne_nil : hdrConc ≠ [] := by decide

lemma hdrConc_cons : hdrConc = '=' :: hdrConcTl := by decide

lemma hdrConc_split3 : hdrConc = '=' :: '=' :: '=' :: qSpConc := by decide

lemma hdrConc_sep_q : hdrConc = sepEq3 ++ qSpConc := by decide

lemma qSpConc_no_eq : '=' ∉ qSpConc := by decide

lemma qSpConc_space_marker : qSpConc = ' ' :: markerConc := by decide

lemma markerComp_infix_hdrComp : markerComp <:+: hdrComp := by decide

lemma markerConc_infix_hdrConc : markerConc <:+: hdrConc := by decide

lemma hdrConc_isPrefixOf_cons_false (a : Char) (l : List Char) (ha : a ≠ '=') :
    hdrConc.isPrefixOf (a :: l) = false := by
  rw [hdrConc_cons, cons_isPrefixOf_cons']
  have hb : (('=' : Char) == a) = false := by
    simp [Ne.symm ha]
  rw [hb, Bool.false_and]

lemma firstOccurAux_step (pat : List Char) (c : Char) (t : List Char) (k : Nat)
    (h : pat.isPrefixOf (c :: t) = false) :
    firstOccurAux pat (c :: t) k = firstOccurAux pat t (k + 1) := by
  have hu : firstOccurAux pat (c :: t) k
      = if pat.isPrefixOf (c :: t) = true then some k
        else firstOccurAux pat t (k + 1) := rfl
  rw [hu, h]
  simp

lemma firstOccurAux_here (pat s : List Char) (k : Nat)
    (h : pat.isPrefixOf s = true) : firstOccurAux pat s k = some k := by
  cases s with
  | nil =>
      have hu : firstOccurAux pat [] k
          = if pat.isPrefixOf ([] : List Char) = true then some k else none := rfl
      rw [hu, h]
      simp
  | cons c t =>
      have hu : firstOccurAux pat (c :: t) k
          = if pat.isPrefixOf (c :: t) = true then some k
            else firstOccurAux pat t (k + 1) := rfl
      rw [hu, h]
      simp

lemma firstOccur_eqSp (X : List Char) : firstOccur (eqSp ++ X) sepEq3 = some 1 := by
  have he : eqSp = ' ' :: '=' :: '=' :: '=' :: [] := by decide
  have hs : sepEq3 = '=' :: '=' :: '=' :: [] := by decide
  have hrw : eqSp ++ X = ' ' :: '=' :: '=' :: '=' :: X := by
    rw [he]; rfl
  have c1 : sepEq3.isPrefixOf (' ' :: '=' :: '=' :: '=' :: X) = false := by
    rw [hs, cons_isPrefixOf_cons']
    have : (('=' : Char) == ' ') = false := by decide
    rw [this, Bool.false_and]
  have c2 : sepEq3.isPrefixOf ('=' :: '=' :: '=' :: X) = true := by
    rw [hs, cons_isPrefixOf_cons', cons_isPrefixOf_cons', cons_isPrefixOf_cons',
      nil_isPrefixOf']
    simp
  rw [firstOccur, hrw, firstOccurAux_step _ _ _ _ c1, firstOccurAux_here _ _ _ c2]

lemma drop_one_sep_eqSp (X : List Char) :
    (eqSp ++ X).drop (1 + sepEq3.length) = X := by
  have h : 1 + sepEq3.length = eqSp.length := by decide
  rw [h, List.drop_left]

lemma scanMatch_cons (hdr : List Char) (capture : List Char → List Char)
    (c : Char) (t : List Char) :
    scanMatch hdr capture (c :: t) =
      match tryMatchAt hdr capture (c :: t) with
      | some r => some r
      | none => scanMatch hdr capture t := rfl

lemma scanMatch_of_tryMatchAt_some (hdr : List Char)
    (capture : List Char → List Char) (s r : List Char) (hne : s ≠ [])
    (h : tryMatchAt hdr capture s = some r) :
    scanMatch hdr capture s = some r := by
  cases s with
  | nil => exact absurd rfl hne
  | cons c t => rw [scanMatch_cons, h]

lemma scanMatch_hdr_eqSp (hdr : List Char) (hne : hdr ≠ [])
    (capture : List Char → List Char) (X : List Char) :
    scanMatch hdr capture (hdr ++ (eqSp ++ X)) = some (capture X) := by
  apply scanMatch_of_tryMatchAt_some
  · intro h
    exact hne ( List.append_eq_nil.mp h).1
  · rw [tryMatchAt, isPrefixOf_append_self, if_pos rfl]
    rw [ List.drop_left, firstOccur_eqSp]
    simp only [Option.map_some']
    rw [drop_one_sep_eqSp]

lemma captureUntilConc_cons (c : Char) (t : List Char) :
    captureUntilConc (c :: t) =
      if hdrConc.isPrefixOf (c :: t) then [] else c :: captureUntilConc t := rfl

lemma captureUntilConc_stops (A : List Char) :
    '=' ∉ A → ∀ t, captureUntilConc (A ++ (hdrConc ++ t)) = A := by
  induction A with
  | nil =>
      intro _ t
      rw [List.nil_append]
      have h1 : hdrConc ++ t = '=' :: (hdrConcTl ++ t) := by
        rw [hdrConc_cons]; rfl
      rw [h1, captureUntilConc_cons, ← h1, isPrefixOf_append_self, if_pos rfl]
  | cons a A' ih =>
      intro hA t
      have ha : a ≠ '=' := fun h => hA (h ▸ List.mem_cons_self a A')
      have hA' : '=' ∉ A' := fun h => hA (List.mem_cons_of_mem a h)
      rw [List.cons_append, captureUntilConc_cons,
        hdrConc_isPrefixOf_cons_false a _ ha]
      simp only [Bool.false_eq_true, if_false]
      rw [ih hA' t]

lemma scanMatch_skip (hdr : List Char) (capture : List Char → List Char)
    (x : List Char) :
    ∀ rest, (∀ v : List Char, v <:+ x → v ≠ [] →
        hdr.isPrefixOf (v ++ rest) = false) →
      scanMatch hdr capture (x ++ rest) = scanMatch hdr capture rest := by
  induction x with
  | nil => intro rest _; rw [List.nil_append]
  | cons a x' ih =>
      intro rest h
      have hpre : hdr.isPrefixOf (a :: (x' ++ rest)) = false := by
        have := h (a :: x') ( List.suffix_refl _) (by simp)
        rwa [List.cons_append] at this
      have htry : tryMatchAt hdr capture (a :: (x' ++ rest)) = none := by
        rw [tryMatchAt, hpre]
        simp
      rw [List.cons_append, scanMatch_cons, htry]
      exact ih rest (fun v hv hne => h v (hv.trans ( List.suffix_cons a x')) hne)

lemma scanMatch_none_of_not_infix (hdr : List Char)
    (capture : List Char → List Char) (s : List Char) (h : ¬ hdr <:+: s) :
    scanMatch hdr capture s = none := by
  induction s with
  | nil => rfl
  | cons c t ih =>
      have hpre : hdr.isPrefixOf (c :: t) = false := by
        by_contra hc
        rw [Bool.not_eq_false] at hc
        exact h ( List.isPrefixOf_iff_prefix.mp hc).isInfix
      have htry : tryMatchAt hdr capture (c :: t) = none := by
        rw [tryMatchAt, hpre]
        simp
      rw [scanMatch_cons, htry]
      exact ih (fun hi => h ( List.infix_cons_iff.mpr (Or.inr hi)))

lemma suffix_append_cases (v x y : List Char) (h : v <:+ x ++ y) :
    v <:+ y ∨ ∃ u, u ≠ [] ∧ u <:+ x ∧ v = u ++ y := by
  induction x with
  | nil =>
      left
      rwa [List.nil_append] at h
  | cons a x' ih =>
      rw [List.cons_append, List.suffix_cons_iff] at h
      rcases h with h | h
      · right
        exact ⟨a :: x', by simp, List.suffix_refl _, by rw [h, List.cons_append]⟩
      · rcases ih h with h' | ⟨u, h1, h2, h3⟩
        · exact Or.inl h'
        · exact Or.inr ⟨u, h1, h2.trans ( List.suffix_cons a x'), h3⟩

lemma prefix_append_iff_of_le (p u W : List Char) (hlen : p.length ≤ u.length) :
    p <+: u ++ W ↔ p <+: u := by
  constructor
  · intro hp
    rw [ List.prefix_iff_eq_take] at hp
    rw [ List.take_append_of_le_length hlen] at hp
    exact List.prefix_iff_eq_take.mpr hp
  · intro hp
    exact hp.trans ( List.prefix_append u W)

lemma isPrefixOf_append_false_of_le (p u W : List Char)
    (hlen : p.length ≤ u.length) (h : p.isPrefixOf u = false) :
    p.isPrefixOf (u ++ W) = false := by
  by_contra hc
  rw [Bool.not_eq_false] at hc
  have h1 := (prefix_append_iff_of_le p u W hlen).mp
    ( List.isPrefixOf_iff_prefix.mp hc)
  have h2 : p.isPrefixOf u = true := List.isPrefixOf_iff_prefix.mpr h1
  rw [h2] at h
  exact absurd h (by decide)

lemma no_eq_prefix_cross (p A r : List Char) (hp : '=' ∉ p)
    (h : p <+: A ++ '=' :: r) : p <+: A := by
  rcases le_or_lt p.length A.length with hle | hlt
  · exact (prefix_append_iff_of_le p A _ hle).mp h
  · exfalso
    rw [ List.prefix_iff_eq_take, List.take_append_eq_append_take] at h
    have hA : A.take p.length = A := List.take_of_length_le (le_of_lt hlt)
    have hpos : 0 < p.length - A.length := by omega
    obtain ⟨k, hk⟩ : ∃ k, p.length - A.length = k + 1 :=
      ⟨_, (Nat.succ_pred_eq_of_pos hpos).symm⟩
    rw [hA, hk, List.take_succ_cons] at h
    apply hp
    rw [h]
    simp

lemma marker_infix_from_qSpConc (A : List Char) (h : qSpConc <+: A) :
    markerConc <:+: A := by
  obtain ⟨w, hw⟩ := h
  refine ⟨[' '], w, ?_⟩
  rw [← hw, qSpConc_space_marker]
  simp

lemma eq_headed_suffixes_of_preComp :
    ∀ u ∈ (hdrComp ++ eqSp).tails, u.head? = some '=' →
      u = hdrComp ++ eqSp ∨ u = (hdrComp ++ eqSp).drop 1 ∨
      u = (hdrComp ++ eqSp).drop 2 ∨
      u = "===".data ∨ u = "==".data ∨ u = "=".data := by decide

lemma hconc_notpre_pre0 : hdrConc.isPrefixOf (hdrComp ++ eqSp) = false := by decide

lemma hconc_notpre_pre1 :
    hdrConc.isPrefixOf ((hdrComp ++ eqSp).drop 1) = false := by decide

lemma hconc_notpre_pre2 :
    hdrConc.isPrefixOf ((hdrComp ++ eqSp).drop 2) = false := by decide

lemma hconc_len0 : hdrConc.length ≤ (hdrComp ++ eqSp).length := by decide

lemma hconc_len1 : hdrConc.length ≤ ((hdrComp ++ eqSp).drop 1).length := by decide

lemma hconc_len2 : hdrConc.length ≤ ((hdrComp ++ eqSp).drop 2).length := by decide

lemma comprehensiveMatch_framed (A B : List Char) (hA : '=' ∉ A) :
    comprehensiveMatch (framedGuides A B) = some A := by
  rw [comprehensiveMatch, framedGuides,
    scanMatch_hdr_eqSp hdrComp hdrComp_ne_nil captureUntilConc _,
    captureUntilConc_stops A hA (eqSp ++ B)]

lemma conciseMatch_framed (A B : List Char) (hA : '=' ∉ A) (hAne : A ≠ [])
    (hm : ¬ markerConc <:+: A) :
    conciseMatch (framedGuides A B) = some B := by
  have hassoc : framedGuides A B
      = ((hdrComp ++ eqSp) ++ A) ++ (hdrConc ++ (eqSp ++ B)) := by
    simp [framedGuides, List.append_assoc]
  have hskip : ∀ v : List Char, v <:+ (hdrComp ++ eqSp) ++ A → v ≠ [] →
      hdrConc.isPrefixOf (v ++ (hdrConc ++ (eqSp ++ B))) = false := by
    intro v hv hvne
    rcases suffix_append_cases v (hdrComp ++ eqSp) A hv with hvA | ⟨u, huNe, huSuf, rfl⟩
    · cases v with
      | nil => exact absurd rfl hvne
      | cons a v' =>
          have haA : a ∈ A := hvA.subset (List.mem_cons_self a v')
          have ha : a ≠ '=' := fun h => hA (h ▸ haA)
          rw [List.cons_append]
          exact hdrConc_isPrefixOf_cons_false a _ ha
    · rw [List.append_assoc]
      cases u with
      | nil => exact absurd rfl huNe
      | cons b u' =>
          by_cases hb : b = '='
          · subst hb
            have hmem : ('=' :: u') ∈ (hdrComp ++ eqSp).tails :=
              ( List.mem_tails _ _).mpr huSuf
            rcases eq_headed_suffixes_of_preComp _ hmem rfl with
              h6 | h6 | h6 | h6 | h6 | h6
            · rw [h6]
              exact isPrefixOf_append_false_of_le _ _ _ hconc_len0 hconc_notpre_pre0
            · rw [h6]
              exact isPrefixOf_append_false_of_le _ _ _ hconc_len1 hconc_notpre_pre1
            · rw [h6]
              exact isPrefixOf_append_false_of_le _ _ _ hconc_len2 hconc_notpre_pre2
            · rw [h6, show ("===".data : List Char) = sepEq3 from rfl]
              by_contra hc
              rw [Bool.not_eq_false] at hc
              have hp : hdrConc <+: sepEq3 ++ (A ++ (hdrConc ++ (eqSp ++ B))) :=
                List.isPrefixOf_iff_prefix.mp hc
              rw [hdrConc_sep_q] at hp
              have hq := ( List.prefix_append_right_inj sepEq3).mp hp
              rw [← hdrConc_sep_q] at hq
              have hR : hdrConc ++ (eqSp ++ B) = '=' :: (hdrConcTl ++ (eqSp ++ B)) := by
                rw [hdrConc_cons]; rfl
              rw [hR] at hq
              exact hm (marker_infix_from_qSpConc A
                (no_eq_prefix_cross _ _ _ qSpConc_no_eq hq))
            · cases A with
              | nil => exact absurd rfl hAne
              | cons a A' =>
                  have ha : a ≠ '=' := fun h => hA (h ▸ List.mem_cons_self a A')
                  rw [h6, show ("==".data : List Char) = '=' :: '=' :: [] from by decide]
                  rw [show (('=' :: '=' :: [] : List Char) ++
                      ((a :: A') ++ (hdrConc ++ (eqSp ++ B)))) =
                      '=' :: '=' :: a :: (A' ++ (hdrConc ++ (eqSp ++ B))) from by simp]
                  rw [hdrConc_split3, cons_isPrefixOf_cons', cons_isPrefixOf_cons',
                    cons_isPrefixOf_cons']
                  have hba : (('=' : Char) == a) = false := by simp [Ne.symm ha]
                  simp [hba]
            · cases A with
              | nil => exact absurd rfl hAne
              | cons a A' =>
                  have ha : a ≠ '=' := fun h => hA (h ▸ List.mem_cons_self a A')
                  rw [h6, show ("=".data : List Char) = '=' :: [] from by decide]
                  rw [show (('=' :: [] : List Char) ++
                      ((a :: A') ++ (hdrConc ++ (eqSp ++ B)))) =
                      '=' :: a :: (A' ++ (hdrConc ++ (eqSp ++ B))) from by simp]
                  rw [hdrConc_split3, cons_isPrefixOf_cons', cons_isPrefixOf_cons']
                  have hba : (('=' : Char) == a) = false := by simp [Ne.symm ha]
                  simp [hba]
          · rw [show ((b :: u') ++ (A ++ (hdrConc ++ (eqSp ++ B)))) =
                b :: (u' ++ (A ++ (hdrConc ++ (eqSp ++ B)))) from by simp]
            exact hdrConc_isPrefixOf_cons_false b _ hb
  rw [conciseMatch, hassoc,
    scanMatch_skip hdrConc id ((hdrComp ++ eqSp) ++ A) (hdrConc ++ (eqSp ++ B)) hskip,
    scanMatch_hdr_eqSp hdrConc hdrConc_ne_nil id B]
  rfl

/-! ### Claim theorems -/

/-- C1: for every input and every upstream failure — a rejected provider
call of the node client, or a non-2xx response or network failure of the
browser client — `transform` returns a `TransformResult` with
`success = false` and a non-empty `error` field.  No exception leaves the
client: both `transform` embeddings are total functions into
`TransformResult`.  (For a rejection/network failure the error field is
the message carried by the failure, so non-emptiness is stated under the
runtime fact that the caught error had a non-empty message; for a non-2xx
browser response the message is built with the `API Error` prefix and is
non-empty unconditionally.) -/
theorem transform_upstream_failure_envelope :
    (∀ (st : ApiState) (text instr : String) (p : Options) (e : String),
       e ≠ "" →
       (transform st text instr p (.err e)).1.success = false ∧
       (transform st text instr p (.err e)).1.error = some e ∧
       (transform st text instr p (.err e)).1.error ≠ some "") ∧
    (∀ (bst : BrowserState) (text instr : String) (status : Nat)
       (statusText : String) (errMsg : Option String),
       (browserTransform bst text instr (.notOk status statusText errMsg)).success = false ∧
       ∃ msg, (browserTransform bst text instr (.notOk status statusText errMsg)).error
                = some msg ∧ msg ≠ "") ∧
    (∀ (bst : BrowserState) (text instr : String) (m : String), m ≠ "" →
       (browserTransform bst text instr (.netFail m)).success = false ∧
       (browserTransform bst text instr (.netFail m)).error = some m) := by
  refine ⟨?_, ?_, ?_⟩
  · intro st text instr p e he
    refine ⟨rfl, rfl, ?_⟩
    simp [transform]
    exact he
  · intro bst text instr status statusText errMsg
    refine ⟨rfl, ?_⟩
    refine ⟨_, rfl, ?_⟩
    have hassoc :
        ("API Error " ++ toString status ++ ": " ++
          (match errMsg with
            | some m => if m == "" then statusText else m
            | none => statusText)) =
        "API Error " ++ (toString status ++ (": " ++
          (match errMsg with
            | some m => if m == "" then statusText else m
            | none => statusText))) := by
      simp [String.append_assoc]
    rw [hassoc]
    exact append_ne_empty_of_left _ _ (by decide)
  · intro bst text instr m hm
    exact ⟨rfl, rfl⟩

/-- C1 witness. -/
theorem transform_upstream_failure_envelope_witness :
    (transform initState "t" "i" {} (.err "boom")).1.success = false ∧
    (transform initState "t" "i" {} (.err "boom")).1.error = some "boom" ∧
    (browserTransform {} "t" "i" (.netFail "Failed to fetch")).error
      = some "Failed to fetch" := by
  refine ⟨(transform_upstream_failure_envelope.1 initState "t" "i" {} "boom" (by decide)).1,
         (transform_upstream_failure_envelope.1 initState "t" "i" {} "boom" (by decide)).2.1,
         (transform_upstream_failure_envelope.2.2 {} "t" "i" "Failed to fetch" (by decide)).2⟩

/-- C2 counterexample: an EDIT request whose instruction is the non-empty
but whitespace-only string `" "` passes the route's `!options.instruction`
check, then `edit` throws and the handler's catch maps it to HTTP 500 —
not the 400-class validation failure the claim demands. -/
theorem edit_whitespace_instruction_yields_500 :
    (handleTransform initState
      { text := some "hi", action := some "EDIT",
        options := { instruction := some " " } } (.err "unused")).1
      = (500, .err editCheckError) ∧ (500 : Nat) ≠ 400 := by
  exact ⟨by decide, by decide⟩

/-- C2 amended: for a POST /transform request with truthy text, an EDIT
action with a missing or empty-string instruction gets a 400 response
with `success=false`; an EDIT action whose instruction is non-empty but
trims to empty gets a 500 response (the client-side `edit` check throws
and the handler maps it to 500, body `success=false`); a CUSTOM action is
rejected with a 400 unknown-action response with `success=false`
(whatever the instruction). -/
theorem transform_edit_custom_validation (st : ApiState) (text : String)
    (htext : text ≠ "") (opts : Options) (up : SdkOutcome) :
    ((opts.instruction = none ∨ opts.instruction = some "") →
       (handleTransform st { text := some text, action := some "EDIT", options := opts } up).1.1 = 400 ∧
       (handleTransform st { text := some text, action := some "EDIT", options := opts } up).1.2.successFlag = false) ∧
    (∀ i : String, opts.instruction = some i → i ≠ "" → jsTrim i = "" →
       (handleTransform st { text := some text, action := some "EDIT", options := opts } up).1
         = (500, .err editCheckError)) ∧
    ((handleTransform st { text := some text, action := some "CUSTOM", options := opts } up).1.1 = 400 ∧
     (handleTransform st { text := some text, action := some "CUSTOM", options := opts } up).1.2.successFlag = false) := by
  refine ⟨?_, ?_, ?_⟩
  · intro hi
    rcases hi with hi | hi <;>
      simp [handleTransform, truthyO, htext, hi, TBody.successFlag]
  · intro i hi hne htrim
    simp [handleTransform, truthyO, htext, hi, hne, edit, htrim]
  · constructor <;>
      simp [handleTransform, truthyO, htext, TBody.successFlag]

/-- C2 witness. -/
theorem transform_edit_custom_validation_witness :
    (handleTransform initState
      { text := some "hi", action := some "EDIT", options := {} } (.err "e")).1.1 = 400 ∧
    (handleTransform initState
      { text := some "hi", action := some "EDIT",
        options := { instruction := some "\t" } } (.err "e")).1
      = (500, .err editCheckError) ∧
    (handleTransform initState
      { text := some "hi", action := some "CUSTOM", options := {} } (.err "e")).1.1 = 400 := by
  refine ⟨((transform_edit_custom_validation initState "hi" (by decide) {} (.err "e")).1
            (Or.inl rfl)).1,
         (transform_edit_custom_validation initState "hi" (by decide)
            { instruction := some "\t" } (.err "e")).2.1 "\t" rfl (by decide) (by decide),
         ((transform_edit_custom_validation initState "hi" (by decide) {} (.err "e")).2.2).1⟩

/-- C3 counterexample: the request `{text:"hi", action:"CUSTOM"}` carries
a valid action of the claimed enum, yet the relay server dispatches to no
Prompt Builder template (zero issued calls) and rejects the action as
unknown with a 400 response. -/
theorem custom_action_rejected_unknown :
    (handleTransform initState { text := some "hi", action := some "CUSTOM" }
        (.err "unused"))
      = ((400, .err "Unknown action: CUSTOM. Supported actions: ARTICULATE, REFINE, EDIT."),
         []) := by
  decide

/-- C3 amended: the actions the relay server accepts are exactly
ARTICULATE, REFINE and EDIT.  For truthy text, ARTICULATE and REFINE
dispatch to their matching template exactly once; EDIT dispatches to the
edit template exactly once provided the instruction is present and does
not trim to empty; CUSTOM is rejected as unknown with a 400 response and
zero template dispatches. -/
theorem transform_dispatch_per_action (st : ApiState) (text : String)
    (htext : text ≠ "") (opts : Options) (up : SdkOutcome) :
    ((handleTransform st { text := some text, action := some "ARTICULATE", options := opts } up).2.map IssuedCall.template = [.articulateT] ∧
     (handleTransform st { text := some text, action := some "ARTICULATE", options := opts } up).1.1 = 200) ∧
    ((handleTransform st { text := some text, action := some "REFINE", options := opts } up).2.map IssuedCall.template = [.refineT] ∧
     (handleTransform st { text := some text, action := some "REFINE", options := opts } up).1.1 = 200) ∧
    (∀ i : String, opts.instruction = some i → jsTrim i ≠ "" →
       (handleTransform st { text := some text, action := some "EDIT", options := opts } up).2.map IssuedCall.template = [.editT] ∧
       (handleTransform st { text := some text, action := some "EDIT", options := opts } up).1.1 = 200) ∧
    ((handleTransform st { text := some text, action := some "CUSTOM", options := opts } up).1.1 = 400 ∧
     (handleTransform st { text := some text, action := some "CUSTOM", options := opts } up).2 = []) := by
  refine ⟨?_, ?_, ?_, ?_⟩
  · constructor <;>
      simp [handleTransform, truthyO, htext, articulate, transform, templateOf]
  · constructor <;>
      simp [handleTransform, truthyO, htext, refine, transform, templateOf]
  · intro i hi htrim
    have hne : i ≠ "" := ne_empty_of_jsTrim_ne_empty htrim
    constructor <;>
      simp [handleTransform, truthyO, htext, hi, hne, edit, htrim, transform, templateOf]
  · constructor <;> simp [handleTransform, truthyO, htext]

/-- C3 witness. -/
theorem transform_dispatch_per_action_witness :
    (handleTransform initState
      { text := some "hi", action := some "ARTICULATE" } (.err "e")).2.map IssuedCall.template
      = [.articulateT] ∧
    (handleTransform initState
      { text := some "hi", action := some "EDIT",
        options := { instruction := some "shorten" } } (.err "e")).2.map IssuedCall.template
      = [.editT] := by
  refine ⟨((transform_dispatch_per_action initState "hi" (by decide) {} (.err "e")).1).1,
         ((transform_dispatch_per_action initState "hi" (by decide)
            { instruction := some "shorten" } (.err "e")).2.2.1 "shorten" rfl (by decide)).1⟩

/-- C5 (code bug): the registry guard of `setModel` is the truthiness of
`this.availableModels[modelId]`, and bracket access also finds the
members inherited from `Object.prototype`.  For the non-registry
identifier `"constructor"` the lookup has no own key, yet `setModel`
returns true and changes the current model to it, and the
POST /models/set route answers 200 with that id as the current model —
where the claim (and the spec) demand an unchanged model, a false return
and a 400 response. -/
theorem setModel_inherited_key_accepted :
    lookupModel "constructor" = none ∧
    setModel initState "constructor" = (true, ⟨"constructor"⟩) ∧
    (handleModelsSet initState (some "constructor")).1.1 = 200 ∧
    (handleModelsSet initState (some "constructor")).2 = ⟨"constructor"⟩ ∧
    setModel initState "not-a-model" = (false, initState) ∧
    (handleModelsSet initState (some "not-a-model")).1.1 = 400 := by
  refine ⟨by decide, by decide, by decide, by decide, by decide, by decide⟩

set_option maxRecDepth 4096

/-- C6 counterexample: a transform request carrying a style-guide object
with non-empty comprehensive and concise guides but dispatched through
the fallback (custom) template gets the plain generic system prompt —
identical to the prompt with no style guide at all, so no style-guide
block is appended; moreover for REFINE an object whose concise guide is
the empty string selects the comprehensive variant, not the concise
one. -/
theorem generic_template_ignores_style_guide :
    buildSystemPrompt
      { systemPrompt := "",
        styleGuide := .obj (some "COMP") (some "CONC") none } = genericTemplate ∧
    buildSystemPrompt
      { systemPrompt := "",
        styleGuide := .obj (some "COMP") (some "CONC") none }
      = buildSystemPrompt { systemPrompt := "" } ∧
    selectedStyleGuideOf "refine" (.obj (some "COMP") (some "") none)
      = some "COMP" := by
  exact ⟨rfl, rfl, by decide⟩

/-- C6 amended: for a style-guide object with a non-empty
`comprehensiveGuide`, the articulate dispatch selects the comprehensive
variant and the refine/edit dispatches select the concise variant when it
is non-empty, falling back to the comprehensive variant otherwise; the
articulate/refine/edit templates embed the (non-empty) style-guide block
into the system prompt, while the generic (custom) template ignores the
style guide entirely. -/
theorem style_guide_block_selection (comp : String) (hcomp : comp ≠ "")
    (conc legacy : Option String) (p : Options) :
    (selectedStyleGuideOf "articulate" (.obj (some comp) conc legacy) = some comp) ∧
    (∀ c : String, conc = some c → c ≠ "" →
       selectedStyleGuideOf "refine" (.obj (some comp) conc legacy) = some c ∧
       selectedStyleGuideOf "edit" (.obj (some comp) conc legacy) = some c) ∧
    ((conc = none ∨ conc = some "") →
       selectedStyleGuideOf "refine" (.obj (some comp) conc legacy) = some comp ∧
       selectedStyleGuideOf "edit" (.obj (some comp) conc legacy) = some comp) ∧
    (∀ intro : String, styleBlock intro (some comp) ≠ "") ∧
    (buildSystemPrompt { p with systemPrompt := "articulate"
                                styleGuide := .obj (some comp) conc legacy }
      = articulateHead
        ++ styleBlock "Befolge diesen Style Guide bei der Ausformulierung:"
             (selectedStyleGuideOf "articulate" (.obj (some comp) conc legacy))
        ++ articulateTail) ∧
    (buildSystemPrompt { p with systemPrompt := "refine"
                                styleGuide := .obj (some comp) conc legacy }
      = refineHead
        ++ styleBlock "Befolge diesen Style Guide bei der Verfeinerung:"
             (selectedStyleGuideOf "refine" (.obj (some comp) conc legacy))
        ++ refineTail) ∧
    (buildSystemPrompt { p with systemPrompt := "edit"
                                styleGuide := .obj (some comp) conc legacy }
      = editHead
        ++ styleBlock "Befolge diesen Style Guide bei der Bearbeitung:"
             (selectedStyleGuideOf "edit" (.obj (some comp) conc legacy))
        ++ editTail) ∧
    (∀ q : Options, templateOf q = .genericT → buildSystemPrompt q = genericTemplate) := by
  refine ⟨?_, ?_, ?_, ?_, rfl, rfl, rfl, ?_⟩
  · simp [selectedStyleGuideOf, truthyO, hcomp]
  · intro c hc hcne
    subst hc
    constructor <;> simp [selectedStyleGuideOf, truthyO, hcomp, hcne]
  · intro hc
    rcases hc with hc | hc <;> subst hc <;> constructor <;>
      simp [selectedStyleGuideOf, truthyO, hcomp]
  · intro intro
    have hb : (comp == "") = false := by simp [hcomp]
    simp only [styleBlock, hb, Bool.false_eq_true, if_false]
    intro he
    have hl : ("STIL-VORGABEN:\n" ++ intro ++ "\n" ++ comp ++
        "\n\nAchte besonders auf:\n- Konsistenz mit den Stil-Beispielen\n- Einhaltung der definierten Regeln\n- Beibehaltung des charakteristischen Tons\n\n").length = 0 := by
      rw [he]; rfl
    simp only [ String.length_append] at hl
    have h15 : ("STIL-VORGABEN:\n" : String).length = 15 := rfl
    omega
  · intro q hq
    unfold templateOf at hq
    unfold buildSystemPrompt
    by_cases h1 : q.systemPrompt == "articulate"
    · simp [h1] at hq
    · by_cases h2 : q.systemPrompt == "refine"
      · simp [h1, h2] at hq
      · by_cases h3 : q.systemPrompt == "edit"
        · simp [h1, h2, h3] at hq
        · simp [h1, h2, h3]

/-- C6 witness. -/
theorem style_guide_block_selection_witness :
    selectedStyleGuideOf "articulate" (.obj (some "X") (some "Y") none) = some "X" ∧
    selectedStyleGuideOf "refine" (.obj (some "X") (some "Y") none) = some "Y" ∧
    styleBlock "Befolge diesen Style Guide bei der Ausformulierung:" (some "X") ≠ "" := by
  refine ⟨(style_guide_block_selection "X" (by decide) (some "Y") none {}).1,
         ((style_guide_block_selection "X" (by decide) (some "Y") none {}).2.1 "Y" rfl (by decide)).1,
         (style_guide_block_selection "X" (by decide) (some "Y") none {}).2.2.2.1 _⟩

/-- C7: each of the seven module-level functions called before
`initializeAPI` (modelled as `apiInstance = none`) throws the
uninitialized-client error synchronously and issues no provider
request. -/
theorem uninitialized_module_functions_throw (text instr ex ai id : String)
    (p : Options) (up : SdkOutcome) :
    articulateText none text p up = (.error apiNotInitializedMsg, []) ∧
    refineText none text p up = (.error apiNotInitializedMsg, []) ∧
    editText none text instr p up = (.error apiNotInitializedMsg, []) ∧
    generateStyleGuideText none ex ai up = (.error apiNotInitializedMsg, 0) ∧
    setModelText none id = (.error apiNotInitializedMsg, 0) ∧
    getAvailableModelsText none = (.error apiNotInitializedMsg, 0) ∧
    getCurrentModelText none = (.error apiNotInitializedMsg, 0) :=
  ⟨rfl, rfl, rfl, rfl, rfl, rfl, rfl⟩

/-- C8 counterexample: a successful transform whose provider response
echoes the input text verbatim (input `"Draft notes about Q3 sales"`,
REFINE dispatch) yields `success=true` with `transformedText` equal to
the original text — not distinct from the input as the claim states. -/
theorem transform_success_can_echo_input :
    (transform initState "Draft notes about Q3 sales" refineInstruction
        { systemPrompt := "refine" }
        (.ok ⟨[⟨"Draft notes about Q3 sales"⟩]⟩)).1.success = true ∧
    (transform initState "Draft notes about Q3 sales" refineInstruction
        { systemPrompt := "refine" }
        (.ok ⟨[⟨"Draft notes about Q3 sales"⟩]⟩)).1.transformedText
      = some "Draft notes about Q3 sales" ∧
    (transform initState "Draft notes about Q3 sales" refineInstruction
        { systemPrompt := "refine" }
        (.ok ⟨[⟨"Draft notes about Q3 sales"⟩]⟩)).1.originalText
      = "Draft notes about Q3 sales" := by
  refine ⟨rfl, ?_, rfl⟩
  decide

/-- C8 amended: every successful transform has `success=true`,
`model` equal to the currently selected model identifier at the time of
the call, and `transformedText` equal to the trimmed provider text; the
latter is non-empty resp. distinct from the input exactly when the
trimmed provider text is. -/
theorem transform_success_envelope (st : ApiState) (text instr : String)
    (p : Options) (ctext : String) (rest : List ContentBlock) :
    (transform st text instr p (.ok ⟨⟨ctext⟩ :: rest⟩)).1.success = true ∧
    (transform st text instr p (.ok ⟨⟨ctext⟩ :: rest⟩)).1.model = some st.model ∧
    (transform st text instr p (.ok ⟨⟨ctext⟩ :: rest⟩)).1.originalText = text ∧
    (transform st text instr p (.ok ⟨⟨ctext⟩ :: rest⟩)).1.transformedText
      = some (jsTrim ctext) ∧
    (jsTrim ctext ≠ "" →
       (transform st text instr p (.ok ⟨⟨ctext⟩ :: rest⟩)).1.transformedText ≠ some "") ∧
    (jsTrim ctext ≠ text →
       (transform st text instr p (.ok ⟨⟨ctext⟩ :: rest⟩)).1.transformedText ≠ some text) := by
  refine ⟨rfl, rfl, rfl, rfl, ?_, ?_⟩
  · intro h
    simp [transform]
    exact h
  · intro h
    simp [transform]
    exact h

/-- C8 witness. -/
theorem transform_success_envelope_witness :
    (transform initState "Draft notes about Q3 sales" refineInstruction
        { systemPrompt := "refine" } (.ok ⟨[⟨"Polished Q3 sales notes."⟩]⟩)).1.success = true ∧
    (transform initState "Draft notes about Q3 sales" refineInstruction
        { systemPrompt := "refine" } (.ok ⟨[⟨"Polished Q3 sales notes."⟩]⟩)).1.model
      = some initState.model ∧
    (transform initState "Draft notes about Q3 sales" refineInstruction
        { systemPrompt := "refine" } (.ok ⟨[⟨"Polished Q3 sales notes."⟩]⟩)).1.transformedText
      ≠ some "" ∧
    (transform initState "Draft notes about Q3 sales" refineInstruction
        { systemPrompt := "refine" } (.ok ⟨[⟨"Polished Q3 sales notes."⟩]⟩)).1.transformedText
      ≠ some "Draft notes about Q3 sales" := by
  refine ⟨(transform_success_envelope initState "Draft notes about Q3 sales"
            refineInstruction { systemPrompt := "refine" } "Polished Q3 sales notes." []).1,
         (transform_success_envelope initState "Draft notes about Q3 sales"
            refineInstruction { systemPrompt := "refine" } "Polished Q3 sales notes." []).2.1,
         (transform_success_envelope initState "Draft notes about Q3 sales"
            refineInstruction { systemPrompt := "refine" } "Polished Q3 sales notes." []).2.2.2.2.1
            (by decide),
         (transform_success_envelope initState "Draft notes about Q3 sales"
            refineInstruction { systemPrompt := "refine" } "Polished Q3 sales notes." []).2.2.2.2.2
            (by decide)⟩

/-- C9 counterexample: one `setModel("constructor")` call succeeds via
the inherited `Object.prototype` member, leaving the current model a
non-registry identifier for which `getCurrentModel` has no registry
metadata — the claimed invariant fails. -/
theorem current_model_leaves_registry :
    (applySetModels ["constructor"] initState).model = "constructor" ∧
    lookupModel "constructor" = none ∧
    (getCurrentModel (applySetModels ["constructor"] initState)).2 = none := by
  refine ⟨by decide, by decide, by decide⟩

/-- C9 amended: after any sequence of `setModel` calls starting from the
initial state, the current model is either a registry key or a member
name inherited from `Object.prototype` (the ids the truthiness guard
wrongly accepts); it starts as a registry key; and `getCurrentModel`
returns the selected identifier together with the own-key registry
metadata — defined exactly when the identifier is a registry key. -/
theorem current_model_registry_or_proto (ids : List String) :
    ((lookupModel (applySetModels ids initState).model).isSome = true ∨
      protoKeys.contains (applySetModels ids initState).model = true) ∧
    (getCurrentModel (applySetModels ids initState)).1
      = (applySetModels ids initState).model ∧
    (getCurrentModel (applySetModels ids initState)).2
      = lookupModel (applySetModels ids initState).model := by
  have h := applySetModels_registry_or_proto ids initState (Or.inl (by decide))
  exact ⟨h, rfl, rfl⟩

/-- C10: a POST /generate-style-guide request whose `exampleText` is
missing, empty or whitespace-only gets a 400 response with
`success=false` and the Transform Client is not called; any other request
passes the whitespace-trimmed `exampleText` to style-guide generation
(200 response). -/
theorem generate_style_guide_route_validation (st : ApiState) (ai : String)
    (up : SdkOutcome) :
    ((handleGenerateStyleGuide st none ai up).1.1 = 400 ∧
     (handleGenerateStyleGuide st none ai up).1.2.successFlag = false ∧
     (handleGenerateStyleGuide st none ai up).2 = none) ∧
    (∀ t : String, jsTrim t = "" →
       (handleGenerateStyleGuide st (some t) ai up).1.1 = 400 ∧
       (handleGenerateStyleGuide st (some t) ai up).1.2.successFlag = false ∧
       (handleGenerateStyleGuide st (some t) ai up).2 = none) ∧
    (∀ t : String, jsTrim t ≠ "" →
       (handleGenerateStyleGuide st (some t) ai up).1.1 = 200 ∧
       (handleGenerateStyleGuide st (some t) ai up).2 = some (jsTrim t)) := by
  refine ⟨⟨rfl, rfl, rfl⟩, ?_, ?_⟩
  · intro t ht
    simp [handleGenerateStyleGuide, ht, GBody.successFlag]
  · intro t ht
    have hne : t ≠ "" := ne_empty_of_jsTrim_ne_empty ht
    simp [handleGenerateStyleGuide, ht, hne]

/-- C10 witness. -/
theorem generate_style_guide_route_validation_witness :
    (handleGenerateStyleGuide initState (some "  ") "" (.err "e")).1.1 = 400 ∧
    (handleGenerateStyleGuide initState (some "  ") "" (.err "e")).2 = none ∧
    (handleGenerateStyleGuide initState (some " sample ") "" (.err "e")).2
      = some "sample" := by
  refine ⟨((generate_style_guide_route_validation initState "" (.err "e")).2.1 "  "
            (by decide)).1,
         ((generate_style_guide_route_validation initState "" (.err "e")).2.1 "  "
            (by decide)).2.2, ?_⟩
  have h := ((generate_style_guide_route_validation initState "" (.err "e")).2.2
    " sample " (by decide)).2
  rw [h]
  decide

/-- C4 counterexample: the provider response
`"UMFASSENDER STYLE GUIDE PRÄZISER STYLE GUIDE"` contains both markers,
yet style-guide generation does not produce two non-empty guides: the
regexes require the `=== … ===` framing, so the comprehensive guide falls
back to the full response and the concise guide is the empty string. -/
theorem bare_markers_not_split :
    markerComp <:+: "UMFASSENDER STYLE GUIDE PRÄZISER STYLE GUIDE".data ∧
    markerConc <:+: "UMFASSENDER STYLE GUIDE PRÄZISER STYLE GUIDE".data ∧
    (generateStyleGuide initState "example" ""
        (.ok ⟨[⟨"UMFASSENDER STYLE GUIDE PRÄZISER STYLE GUIDE"⟩]⟩)).conciseGuide
      = some "" ∧
    (generateStyleGuide initState "example" ""
        (.ok ⟨[⟨"UMFASSENDER STYLE GUIDE PRÄZISER STYLE GUIDE"⟩]⟩)).comprehensiveGuide
      = some "UMFASSENDER STYLE GUIDE PRÄZISER STYLE GUIDE" := by
  refine ⟨by decide, by decide, by decide, by decide⟩

/-- C4 amended: style-guide generation parses the (trimmed) provider
response with the two framed-marker regexes.  When the response contains
neither bare marker, both regexes fail, so the comprehensive guide equals
the full response and the concise guide is empty.  When the response has
the documented framed format `=== UMFASSENDER STYLE GUIDE ===` A
`=== PRÄZISER STYLE GUIDE ===` B — with A free of `=` characters and of
the concise marker, and both contents non-empty after trimming — the two
guides are exactly the trimmed contents (hence two non-empty strings).
A response that merely contains the bare markers without the framing
falls to the full-response/empty fallback (see the counterexample). -/
theorem style_guide_parsing :
    (∀ s : List Char, ¬ markerComp <:+: s → ¬ markerConc <:+: s →
       parseGuides s = (s, [])) ∧
    (∀ A B : List Char, '=' ∉ A → ¬ markerConc <:+: A →
       trimChars A ≠ [] → trimChars B ≠ [] →
       parseGuides (framedGuides A B) = (trimChars A, trimChars B)) ∧
    (∀ (st : ApiState) (ex ai raw : String) (rest : List ContentBlock),
       (generateStyleGuide st ex ai (.ok ⟨⟨raw⟩ :: rest⟩)).comprehensiveGuide
         = some ⟨(parseGuides (trimChars raw.data)).1⟩ ∧
       (generateStyleGuide st ex ai (.ok ⟨⟨raw⟩ :: rest⟩)).conciseGuide
         = some ⟨(parseGuides (trimChars raw.data)).2⟩ ∧
       (generateStyleGuide st ex ai (.ok ⟨⟨raw⟩ :: rest⟩)).fullResponse
         = some (jsTrim raw)) := by
  refine ⟨?_, ?_, ?_⟩
  · intro s h1 h2
    have hc : comprehensiveMatch s = none :=
      scanMatch_none_of_not_infix _ _ _
        (fun hi => h1 (markerComp_infix_hdrComp.trans hi))
    have hcc : conciseMatch s = none :=
      scanMatch_none_of_not_infix _ _ _
        (fun hi => h2 (markerConc_infix_hdrConc.trans hi))
    simp [parseGuides, hc, hcc]
  · intro A B hA hm hta htb
    have hAne : A ≠ [] := fun h => hta (by rw [h]; rfl)
    simp [parseGuides, comprehensiveMatch_framed A B hA,
      conciseMatch_framed A B hA hAne hm]
  · intro st ex ai raw rest
    exact ⟨rfl, rfl, rfl⟩

/-- C4 witness. -/
theorem style_guide_parsing_witness :
    parseGuides "hello".data = ("hello".data, []) ∧
    parseGuides (framedGuides "a".data "b".data) = ("a".data, "b".data) := by
  refine ⟨style_guide_parsing.1 "hello".data (by decide) (by decide), ?_⟩
  have h := style_guide_parsing.2.1 "a".data "b".data (by decide) (by decide)
    (by decide) (by decide)
  rw [h]
  decide

end CopyRefinery
